import Mathlib

/-!
Verification of the voice-cloning training pipeline (`voice_engine.py`).

The Python code is shallowly embedded: floats are modelled as rationals,
numpy vectors as lists of rationals, the job registry as an association
list, and the worker's mutations of a job record as an explicit trace.
Randomness (`np.random.normal`) is made an explicit argument.
-/

namespace VoiceClone

/-- Embedding of `np.mean` on a list of numbers: sum divided by length. -/
def npMean (xs : List ℚ) : ℚ := xs.sum / (xs.length : ℚ)

/-- Embedding of `np.mean(np.stack(rows), axis=0)`: the element-wise mean of a list of
equal-length rows (the length is taken from the first row, as `np.stack`
takes its shape from the stacked arrays). -/
def elementwiseMean (rows : List (List ℚ)) : List ℚ :=
  match rows with
  | [] => []
  | r :: _ => (List.range r.length).map (fun j => npMean (rows.map (fun row => row.getD j 0)))

/-- Python `sorted(list(set(xs)))`: exact-value deduplication followed by an
ascending sort. -/
def sortedSet (xs : List ℚ) : List ℚ := (xs.dedup).insertionSort (· ≤ ·)

/-- The `VoiceCharacteristics` dataclass: features extracted from one audio
sample. -/
structure VoiceCharacteristics where
  fundamental_frequency : ℚ
  spectral_centroid : ℚ
  spectral_rolloff : ℚ
  zero_crossing_rate : ℚ
  mfcc_features : List ℚ
  chroma_features : List ℚ
  tempo : ℚ
  pitch_variance : ℚ
  formants : List ℚ
  voice_quality_score : ℚ
  deriving DecidableEq

/-- The combined profile dictionary produced by
`_combine_voice_characteristics`. -/
structure VoiceProfile where
  fundamental_frequency : ℚ
  spectral_centroid : ℚ
  spectral_rolloff : ℚ
  zero_crossing_rate : ℚ
  mfcc_features : List ℚ
  chroma_features : List ℚ
  tempo : ℚ
  pitch_variance : ℚ
  formants : List ℚ
  voice_quality_score : ℚ
  deriving DecidableEq

/-- The combiner `_combine_voice_characteristics`: averages the scalar fields with
`np.mean`, takes the element-wise mean of the stacked MFCC / chroma vectors,
and merges the formant lists by `sorted(list(set(...)))[:4]`, substituting
the default `[500, 1500, 2500, 3500]` when the union is empty.  Returns
`none` on the empty list (the Python code raises `ValueError`). -/
def combine_voice_characteristics (cs : List VoiceCharacteristics) : Option VoiceProfile :=
  if cs = [] then none
  else
    let allFormants := cs.flatMap (fun c => c.formants)
    some
      { fundamental_frequency := npMean (cs.map (fun c => c.fundamental_frequency))
        spectral_centroid := npMean (cs.map (fun c => c.spectral_centroid))
        spectral_rolloff := npMean (cs.map (fun c => c.spectral_rolloff))
        zero_crossing_rate := npMean (cs.map (fun c => c.zero_crossing_rate))
        mfcc_features := elementwiseMean (cs.map (fun c => c.mfcc_features))
        chroma_features := elementwiseMean (cs.map (fun c => c.chroma_features))
        tempo := npMean (cs.map (fun c => c.tempo))
        pitch_variance := npMean (cs.map (fun c => c.pitch_variance))
        formants := if allFormants = [] then [500, 1500, 2500, 3500]
                    else (sortedSet allFormants).take 4
        voice_quality_score := npMean (cs.map (fun c => c.voice_quality_score)) }

/-- The `quality_multipliers` table of `_validate_model_quality`, read with
`dict.get(quality, 0.8)`. -/
def qualityMultiplier (quality : String) : ℚ :=
  if quality = "draft" then 7/10
  else if quality = "standard" then 8/10
  else if quality = "high" then 9/10
  else if quality = "premium" then 95/100
  else 8/10

/-- The scorer `_validate_model_quality`, with the draw from `np.random.normal(0, 0.05)`
made an explicit `noise` argument (the profile always carries a
`voice_quality_score`, so the dictionary default `0.5` never applies). -/
def validate_model_quality (characteristics : VoiceProfile) (quality : String)
    (noise : ℚ) : ℚ :=
  let base_quality := characteristics.voice_quality_score
  let multiplier := qualityMultiplier quality
  max 0 (min 1 (base_quality * multiplier + noise))

/-- One entry of `self.training_jobs` (the future handle, a scheduling
primitive, is not part of the data model). -/
structure JobRecord where
  id : String
  voice_name : String
  quality : String
  language : String
  status : String
  progress : ℚ
  current_stage : String
  created_at : Nat
  audio_files : List String
  estimated_duration : Nat
  deriving DecidableEq

/-- Dictionary lookup `self.training_jobs[job_id]` on the registry,
modelled as an association list keyed by job id. -/
def lookupJob (jobs : List (String × JobRecord)) (job_id : String) : Option JobRecord :=
  (jobs.find? (fun p => p.1 == job_id)).map (fun p => p.2)

/-- The method `cancel_training`: returns `False` when the id is unknown; otherwise
sets `status` to `"cancelled"` and `progress` to `0` on the record and
returns `True`.  There is no terminal-state check in the source. -/
def cancel_training (jobs : List (String × JobRecord)) (job_id : String) :
    Bool × List (String × JobRecord) :=
  match lookupJob jobs job_id with
  | none => (false, jobs)
  | some _ =>
      (true, jobs.map (fun p =>
        if p.1 == job_id
        then (p.1, { p.2 with status := "cancelled", progress := 0 })
        else p))

/-- The `stages` table of `_train_voice_model` (label, cumulative progress
ceiling). -/
def stages : List (String × ℚ) :=
  [("Analyzing audio quality", 10),
   ("Extracting voice characteristics", 20),
   ("Preprocessing audio data", 35),
   ("Training neural network", 70),
   ("Optimizing voice model", 85),
   ("Validating output quality", 95),
   ("Finalizing model", 100)]

/-- The successive `(status, progress)` values of a job record along a
successful run of `_train_voice_model` with `n` audio files and `it`
training iterations: one entry per mutation of either field, starting from
the record created by `start_voice_cloning`.  The per-file updates are
`min(20 + 15 * (i + 1) / n, 35)` and the per-iteration updates are
`70 + 15 * i / it`, exactly as in the source. -/
def jobTrace (n it : Nat) : List (String × ℚ) :=
  [("initializing", 0), ("analyzing", 0), ("analyzing", 10), ("analyzing", 20)]
    ++ ((List.range n).map (fun (i : Nat) => ("analyzing", min (20 + 15 * ((i : ℚ) + 1) / (n : ℚ)) 35))
    ++ ([("analyzing", 35), ("training", 35)]
    ++ ((List.range it).map (fun (i : Nat) => ("training", 70 + 15 * (i : ℚ) / (it : ℚ)))
    ++ [("training", 85), ("training", 95), ("training", 100), ("completed", 100)])))

/-- The engine state touched by `delete_voice_model`: the ids that have a
stored `<id>.pkl` file, and the in-memory job registry. -/
structure EngineState where
  modelFiles : List String
  training_jobs : List (String × JobRecord)
  deriving DecidableEq

/-- The method `delete_voice_model`: unlinks the model file if it exists, removes the
registry entry if present, and returns `True` (the source returns `False`
only when the filesystem raises, which the embedding does not model). -/
def delete_voice_model (s : EngineState) (job_id : String) : Bool × EngineState :=
  (true,
   { modelFiles := s.modelFiles.filter (fun m => m != job_id)
     training_jobs := s.training_jobs.filter (fun p => p.1 != job_id) })

/-- The payload of a readable stored model, as written by the trainer
(`model_data` always carries these keys). -/
structure ModelData where
  voice_name : String
  language : String
  quality : String
  quality_score : ℚ
  created_at : String
  deriving DecidableEq

/-- One `*.pkl` file in the model directory: its stem, its size, and its
unpickled payload (`none` when `load_voice_model` fails on it). -/
structure ModelFile where
  stem : String
  file_size : Nat
  data : Option ModelData
  deriving DecidableEq

/-- The summary built by `list_voice_models` for one model file. -/
structure ModelInfo where
  id : String
  name : String
  language : String
  quality : String
  quality_score : ℚ
  created_at : String
  file_size : Nat
  deriving DecidableEq

/-- The summary of one model file, or `none` when loading it fails (the
`except` branch that logs and continues). -/
def modelInfoOf (f : ModelFile) : Option ModelInfo :=
  f.data.map (fun d =>
    { id := f.stem
      name := d.voice_name
      language := d.language
      quality := d.quality
      quality_score := d.quality_score
      created_at := d.created_at
      file_size := f.file_size })

/-- The sort order of `list_voice_models`: by `created_at` descending
(`reverse=True`; ISO-8601 strings compare lexicographically). -/
def byCreatedAtDesc (a b : ModelInfo) : Prop := b.created_at ≤ a.created_at

instance : DecidableRel byCreatedAtDesc := fun a b =>
  inferInstanceAs (Decidable (b.created_at ≤ a.created_at))

instance : IsTotal ModelInfo byCreatedAtDesc :=
  ⟨fun a b => (le_total b.created_at a.created_at).imp id id⟩

instance : IsTrans ModelInfo byCreatedAtDesc :=
  ⟨fun _ _ _ hab hbc => le_trans hbc hab⟩

/-- The method `list_voice_models`: build a summary per readable model file, skip the
files that fail to load, and sort by `created_at` descending. -/
def list_voice_models (files : List ModelFile) : List ModelInfo :=
  (files.filterMap modelInfoOf).insertionSort byCreatedAtDesc

/-! ### Helper lemmas -/

/-- The Boolean returned by `cancel_training` is exactly "the id is known". -/
lemma cancel_training_fst (jobs : List (String × JobRecord)) (job_id : String) :
    (cancel_training jobs job_id).1 = (lookupJob jobs job_id).isSome := by
  unfold cancel_training
  cases h : lookupJob jobs job_id <;> rfl

/-- Looking the job up after `cancel_training` yields the old record with
`status` set to `"cancelled"` and `progress` set to `0` (and `none` when the
id was unknown). -/
lemma lookupJob_cancel (jobs : List (String × JobRecord)) (job_id : String) :
    lookupJob (cancel_training jobs job_id).2 job_id
      = (lookupJob jobs job_id).map
          (fun j => { j with status := "cancelled", progress := 0 }) := by
  unfold cancel_training
  cases h : lookupJob jobs job_id with
  | none => simp [h]
  | some j =>
      simp only [Option.map_some]
      unfold lookupJob at h ⊢
      rw [List.find?_map]
      have hg : ((fun p : String × JobRecord => p.1 == job_id) ∘
          (fun p : String × JobRecord =>
            if p.1 == job_id
            then (p.1, { p.2 with status := "cancelled", progress := 0 })
            else p)) = fun p => p.1 == job_id := by
        funext p
        by_cases hc : p.1 = job_id <;> simp [hc]
      rw [hg]
      obtain ⟨pr, hpr, hj⟩ := Option.map_eq_some'.mp h
      have hq : pr.1 = job_id := by simpa using List.find?_some hpr
      rw [hpr]
      simp [hq, hj]

/-- Every per-file progress update lies between the stage-2 ceiling 20 and
the stage-3 ceiling 35. -/
lemma fileStage_mem_bounds (n : Nat) {x : String × ℚ}
    (hx : x ∈ (List.range n).map
      (fun (i : Nat) => (("analyzing", min (20 + 15 * ((i : ℚ) + 1) / (n : ℚ)) 35) : String × ℚ))) :
    20 ≤ x.2 ∧ x.2 ≤ 35 := by
  obtain ⟨i, _, rfl⟩ := List.mem_map.mp hx
  refine ⟨le_min ?_ (by norm_num), min_le_right _ _⟩
  have h0 : (0:ℚ) ≤ 15 * ((i : ℚ) + 1) / (n : ℚ) := by positivity
  linarith

/-- The per-file progress updates are non-decreasing in the file index. -/
lemma fileStage_chain (n : Nat) :
    List.Chain' (fun a b : String × ℚ => a.2 ≤ b.2)
      ((List.range n).map
        (fun (i : Nat) => (("analyzing", min (20 + 15 * ((i : ℚ) + 1) / (n : ℚ)) 35) : String × ℚ))) := by
  rw [List.chain'_map]
  cases n with
  | zero => simp
  | succ m =>
      rw [List.chain'_range_succ]
      intro i _
      refine min_le_min ?_ le_rfl
      have hpos : (0:ℚ) < ((m : ℚ) + 1) := by positivity
      have h1 : ((i:ℚ) + 1) ≤ ((i:ℚ) + 1 + 1) := by linarith
      push_cast
      gcongr

/-- Every per-iteration progress update lies between the training floor 70
and the stage-5 ceiling 85. -/
lemma trainStage_mem_bounds (it : Nat) {x : String × ℚ}
    (hx : x ∈ (List.range it).map
      (fun (i : Nat) => (("training", 70 + 15 * (i : ℚ) / (it : ℚ)) : String × ℚ))) :
    70 ≤ x.2 ∧ x.2 ≤ 85 := by
  obtain ⟨i, hi, rfl⟩ := List.mem_map.mp hx
  have hi' : i < it := List.mem_range.mp hi
  have hitpos : (0:ℚ) < (it : ℚ) := by
    have : 0 < it := Nat.lt_of_le_of_lt (Nat.zero_le i) hi'
    exact_mod_cast this
  constructor
  · have h0 : (0:ℚ) ≤ 15 * (i : ℚ) / (it : ℚ) := by positivity
    simpa using add_le_add_left h0 70
  · have h1 : (i:ℚ) ≤ (it:ℚ) := by exact_mod_cast Nat.le_of_lt hi'
    have h2 : 15 * (i:ℚ) / (it:ℚ) ≤ 15 := by
      rw [div_le_iff₀ hitpos]
      linarith
    simp only []
    linarith

/-- The per-iteration progress updates are non-decreasing in the iteration
index. -/
lemma trainStage_chain (it : Nat) :
    List.Chain' (fun a b : String × ℚ => a.2 ≤ b.2)
      ((List.range it).map
        (fun (i : Nat) => (("training", 70 + 15 * (i : ℚ) / (it : ℚ)) : String × ℚ))) := by
  rw [List.chain'_map]
  cases it with
  | zero => simp
  | succ m =>
      rw [List.chain'_range_succ]
      intro i _
      have hpos : (0:ℚ) < ((m : ℚ) + 1) := by positivity
      push_cast
      have h1 : (i:ℚ) ≤ (i:ℚ) + 1 := by linarith
      gcongr

/-- Along a successful worker run the (status, progress) trace has
non-decreasing progress. -/
lemma jobTrace_chain (n it : Nat) (hn : 0 < n) (hit : 0 < it) :
    List.Chain' (fun a b : String × ℚ => a.2 ≤ b.2) (jobTrace n it) := by
  obtain ⟨m, rfl⟩ := Nat.exists_eq_succ_of_ne_zero (Nat.pos_iff_ne_zero.mp hn)
  obtain ⟨k, rfl⟩ := Nat.exists_eq_succ_of_ne_zero (Nat.pos_iff_ne_zero.mp hit)
  unfold jobTrace
  refine List.Chain'.append ?_ (List.Chain'.append (fileStage_chain _)
      (List.Chain'.append ?_ (List.Chain'.append (trainStage_chain _) ?_ ?_) ?_) ?_) ?_
  · norm_num
  · norm_num
  · norm_num
  · -- training block → [85, 95, 100, 100]
    intro x hx y hy
    have hxm := trainStage_mem_bounds (k + 1) (List.mem_of_getLast?_eq_some hx)
    simp only [List.head?_cons, Option.mem_def, Option.some.injEq] at hy
    subst hy
    exact le_trans hxm.2 (by norm_num)
  · -- [35, 35] block → training ++ tail
    intro x hx y hy
    simp only [List.getLast?_cons_cons, List.getLast?_singleton, Option.mem_def,
      Option.some.injEq] at hx
    subst hx
    rcases List.mem_of_mem_head? (l := _) hy with hy'
    rcases List.mem_append.mp hy' with h | h
    · have := trainStage_mem_bounds (k + 1) h
      exact le_trans (by norm_num) this.1
    · -- head of the append is in the training block since it is non-empty;
      -- still, any element of the tail is ≥ 85 ≥ 35
      have : y.2 = 85 ∨ y.2 = 95 ∨ y.2 = 100 ∨ y.2 = 100 := by
        simp only [List.mem_cons, List.mem_singleton] at h
        rcases h with rfl | rfl | rfl | rfl | h
        · exact Or.inl rfl
        · exact Or.inr (Or.inl rfl)
        · exact Or.inr (Or.inr (Or.inl rfl))
        · exact Or.inr (Or.inr (Or.inr rfl))
        · cases h
      rcases this with h | h | h | h <;> rw [h] <;> norm_num
  · -- file block → [35, 35] ++ tail
    intro x hx y hy
    have hxm := fileStage_mem_bounds (m + 1) (List.mem_of_getLast?_eq_some hx)
    simp only [List.cons_append, List.head?_cons, Option.mem_def, Option.some.injEq] at hy
    subst hy
    exact le_trans hxm.2 (by norm_num)
  · -- initial block → file block ++ tail
    intro x hx y hy
    simp only [List.getLast?_cons_cons, List.getLast?_singleton, Option.mem_def,
      Option.some.injEq] at hx
    subst hx
    have hy' := List.mem_of_mem_head? hy
    rcases List.mem_append.mp hy' with h | h
    · exact le_trans (by norm_num) (fileStage_mem_bounds (m + 1) h).1
    · rcases List.mem_append.mp h with h | h
      · simp only [List.mem_cons, List.mem_singleton] at h
        rcases h with rfl | rfl | h
        · norm_num
        · norm_num
        · cases h
      · rcases List.mem_append.mp h with h | h
        · exact le_trans (by norm_num) (trainStage_mem_bounds (k + 1) h).1
        · simp only [List.mem_cons, List.mem_singleton] at h
          rcases h with rfl | rfl | rfl | rfl | h
          · norm_num
          · norm_num
          · norm_num
          · norm_num
          · cases h

/-! ### Concrete records used in counterexamples and witnesses -/

/-- A job whose worker is mid-run at progress 10. -/
def job0 : JobRecord :=
  { id := "job-0", voice_name := "alice", quality := "standard", language := "en-US",
    status := "analyzing", progress := 10, current_stage := "Analyzing audio quality",
    created_at := 0, audio_files := ["a.wav"], estimated_duration := 60 }

/-- A job whose worker is mid-training at progress 42. -/
def jobA : JobRecord :=
  { id := "job-a", voice_name := "bob", quality := "high", language := "en-US",
    status := "training", progress := 42, current_stage := "Training neural network",
    created_at := 3, audio_files := ["b.wav", "c.wav"], estimated_duration := 300 }

/-- A job that already finished: terminal status `completed`, progress 100. -/
def jobC : JobRecord :=
  { id := "job-c", voice_name := "carol", quality := "standard", language := "en-US",
    status := "completed", progress := 100, current_stage := "Finalizing model",
    created_at := 7, audio_files := ["d.wav"], estimated_duration := 120 }

/-- A concrete combined profile with quality score 1/2. -/
def profile0 : VoiceProfile :=
  { fundamental_frequency := 150, spectral_centroid := 2000, spectral_rolloff := 4000,
    zero_crossing_rate := 1/10, mfcc_features := [1], chroma_features := [1],
    tempo := 120, pitch_variance := 5, formants := [500, 1500, 2500, 3500],
    voice_quality_score := 1/2 }

/-! ### Claim theorems -/

/-- Claim C2: for every profile, quality tier and noise draw,
`_validate_model_quality` returns
`clamp(voice_quality_score * multiplier + noise, 0, 1)` with multiplier 0.7
for draft, 0.8 for standard, 0.9 for high, 0.95 for premium and 0.8 for any
unknown tier, and the result always lies in `[0, 1]`. -/
theorem validate_model_quality_spec (p : VoiceProfile) (q : String) (noise : ℚ) :
    validate_model_quality p q noise
      = max 0 (min 1 (p.voice_quality_score *
          (if q = "draft" then 7/10 else if q = "standard" then 8/10
           else if q = "high" then 9/10 else if q = "premium" then 95/100 else 8/10)
          + noise))
    ∧ 0 ≤ validate_model_quality p q noise
    ∧ validate_model_quality p q noise ≤ 1 := by
  refine ⟨rfl, le_max_left 0 _, ?_⟩
  exact max_le (by norm_num) (min_le_left 1 _)

/-- Claim C8 (code bug): the score depends on the value drawn from
`np.random.normal(0, 0.05)` — on the same profile and tier, two different
draws give two different scores, and the source offers no way to disable or
seed the draw. -/
theorem validate_model_quality_noise_dependent :
    validate_model_quality profile0 "standard" (1/100)
      ≠ validate_model_quality profile0 "standard" (-(1/100)) := by
  simp [validate_model_quality, qualityMultiplier, profile0]
  norm_num [min_def, max_def]

/-- Claim C4 counterexample: cancelling the running job `job-a` (progress 42)
does not only flip `status` — it also overwrites `progress` with 0. -/
theorem cancel_frame_counterexample :
    (lookupJob (cancel_training [("job-a", jobA)] "job-a").2 "job-a").map JobRecord.progress
        = some 0
    ∧ jobA.progress = 42
    ∧ some (0 : ℚ) ≠ some (42 : ℚ) := by
  refine ⟨rfl, rfl, ?_⟩
  norm_num

/-- Claim C4 (amended): a cancellation request on a known job sets `status`
to `cancelled` and `progress` to `0`, and leaves every other field of the
record unchanged; unknown ids leave the registry untouched. -/
theorem cancel_training_frame_amended (jobs : List (String × JobRecord)) (job_id : String) :
    lookupJob (cancel_training jobs job_id).2 job_id
      = (lookupJob jobs job_id).map (fun j =>
          { id := j.id, voice_name := j.voice_name, quality := j.quality,
            language := j.language, status := "cancelled", progress := 0,
            current_stage := j.current_stage, created_at := j.created_at,
            audio_files := j.audio_files, estimated_duration := j.estimated_duration }) :=
  lookupJob_cancel jobs job_id

/-- Claim C5 counterexample: `cancel_training` on the already-completed job
`job-c` returns `True` (the claim requires `False`) and mutates the terminal
record, setting its status to `cancelled` and its progress to 0. -/
theorem cancel_terminal_counterexample :
    jobC.status = "completed"
    ∧ (cancel_training [("job-c", jobC)] "job-c").1 = true
    ∧ lookupJob (cancel_training [("job-c", jobC)] "job-c").2 "job-c"
        = some { jobC with status := "cancelled", progress := 0 } :=
  ⟨rfl, rfl, rfl⟩

/-- Claim C5 (amended): `cancel_training` returns `False` exactly when the
job id is unknown; for every known job — including jobs already in a
terminal state — it returns `True` and rewrites the record's status to
`cancelled` and its progress to 0. -/
theorem cancel_training_return_amended (jobs : List (String × JobRecord)) (job_id : String) :
    (cancel_training jobs job_id).1 = (lookupJob jobs job_id).isSome
    ∧ lookupJob (cancel_training jobs job_id).2 job_id
        = (lookupJob jobs job_id).map
            (fun j => { j with status := "cancelled", progress := 0 }) :=
  ⟨cancel_training_fst jobs job_id, lookupJob_cancel jobs job_id⟩

/-- Claim C3 counterexample: cancelling `job-0` at progress 10 resets its
progress to 0, a strict decrease; and in a successful run with 1 file and 5
iterations the record passes through progress 100 while its status is still
`training`, not `completed`. -/
theorem progress_monotonicity_counterexample :
    (lookupJob (cancel_training [("job-0", job0)] "job-0").2 "job-0").map JobRecord.progress
        = some 0
    ∧ job0.progress = 10
    ∧ (0 : ℚ) < 10
    ∧ ("training", (100 : ℚ)) ∈ jobTrace 1 5 := by
  refine ⟨rfl, rfl, by norm_num, ?_⟩
  simp [jobTrace]

/-- Claim C3 (amended): along the worker's own mutations of a successful run
the progress is monotonically non-decreasing and the trace ends at status
`completed` with progress 100; however progress already equals 100 at the
finalizing mutation while the status is still `training`, and a cancellation
request resets the progress of any known job to 0 (breaking monotonicity
whenever the job had advanced). -/
theorem progress_monotone_amended (n it : Nat) (hn : 0 < n) (hit : 0 < it) :
    List.Chain' (fun a b : String × ℚ => a.2 ≤ b.2) (jobTrace n it)
    ∧ (jobTrace n it).getLast? = some ("completed", 100)
    ∧ ("training", (100 : ℚ)) ∈ jobTrace n it
    ∧ ∀ jobs job_id,
        (lookupJob (cancel_training jobs job_id).2 job_id).map JobRecord.progress
          = (lookupJob jobs job_id).map (fun _ => (0 : ℚ)) := by
  refine ⟨jobTrace_chain n it hn hit, ?_, ?_, ?_⟩
  · simp only [jobTrace, List.getLast?_append]
    rfl
  · simp [jobTrace]
  · intro jobs job_id
    rw [lookupJob_cancel]
    cases lookupJob jobs job_id <;> rfl

/-- Witness for the amended C3 theorem at 1 audio file and 5 training
iterations. -/
theorem progress_monotone_amended_witness :
    0 < 1 ∧ 0 < 5
    ∧ (List.Chain' (fun a b : String × ℚ => a.2 ≤ b.2) (jobTrace 1 5)
       ∧ (jobTrace 1 5).getLast? = some ("completed", 100)
       ∧ ("training", (100 : ℚ)) ∈ jobTrace 1 5
       ∧ ∀ jobs job_id,
           (lookupJob (cancel_training jobs job_id).2 job_id).map JobRecord.progress
             = (lookupJob jobs job_id).map (fun _ => (0 : ℚ))) :=
  ⟨by decide, by decide, progress_monotone_amended 1 5 (by decide) (by decide)⟩

/-- Claim C6 counterexample: the second stage of the table is
`("Extracting voice characteristics", 20)` — its ceiling is 20, not the 35
the claim states. -/
theorem stages_table_counterexample :
    stages[1]? = some ("Extracting voice characteristics", 20) ∧ ((20 : ℚ) ≠ 35) :=
  ⟨rfl, by norm_num⟩

/-- Claim C6 (amended): the stage table consists of exactly the seven stages
with ceilings 10, 20, 35, 70, 85, 95, 100 (the `Extracting voice
characteristics` ceiling is 20), and in every successful run the worker sets
the job's progress to each of these ceilings. -/
theorem stages_table_amended (n it : Nat) (hn : 0 < n) (hit : 0 < it) :
    stages = [("Analyzing audio quality", 10), ("Extracting voice characteristics", 20),
              ("Preprocessing audio data", 35), ("Training neural network", 70),
              ("Optimizing voice model", 85), ("Validating output quality", 95),
              ("Finalizing model", 100)]
    ∧ (10 : ℚ) ∈ (jobTrace n it).map Prod.snd
    ∧ (20 : ℚ) ∈ (jobTrace n it).map Prod.snd
    ∧ (35 : ℚ) ∈ (jobTrace n it).map Prod.snd
    ∧ (70 : ℚ) ∈ (jobTrace n it).map Prod.snd
    ∧ (85 : ℚ) ∈ (jobTrace n it).map Prod.snd
    ∧ (95 : ℚ) ∈ (jobTrace n it).map Prod.snd
    ∧ (100 : ℚ) ∈ (jobTrace n it).map Prod.snd := by
  refine ⟨rfl, ?_, ?_, ?_, ?_, ?_, ?_, ?_⟩
  · simp [jobTrace]
  · simp [jobTrace]
  · simp [jobTrace]
  · -- 70 is set at the first training iteration (i = 0)
    simp only [jobTrace, List.map_append, List.mem_append, List.map_map, List.map_cons,
      List.map_nil, List.mem_cons, List.mem_map, List.mem_range, Function.comp]
    refine Or.inr (Or.inr (Or.inr (Or.inl ⟨0, hit, ?_⟩)))
    norm_num
  · simp [jobTrace]
  · simp [jobTrace]
  · simp [jobTrace]

/-- Witness for the amended C6 theorem at 1 audio file and 5 training
iterations. -/
theorem stages_table_amended_witness :
    0 < 1 ∧ 0 < 5
    ∧ (stages = [("Analyzing audio quality", 10), ("Extracting voice characteristics", 20),
              ("Preprocessing audio data", 35), ("Training neural network", 70),
              ("Optimizing voice model", 85), ("Validating output quality", 95),
              ("Finalizing model", 100)]
       ∧ (10 : ℚ) ∈ (jobTrace 1 5).map Prod.snd
       ∧ (20 : ℚ) ∈ (jobTrace 1 5).map Prod.snd
       ∧ (35 : ℚ) ∈ (jobTrace 1 5).map Prod.snd
       ∧ (70 : ℚ) ∈ (jobTrace 1 5).map Prod.snd
       ∧ (85 : ℚ) ∈ (jobTrace 1 5).map Prod.snd
       ∧ (95 : ℚ) ∈ (jobTrace 1 5).map Prod.snd
       ∧ (100 : ℚ) ∈ (jobTrace 1 5).map Prod.snd) :=
  ⟨by decide, by decide, stages_table_amended 1 5 (by decide) (by decide)⟩

/-- Claim C9 counterexample: deleting an id with no stored model file and no
registry entry returns `True`, not `False` as the claim states. -/
theorem delete_unknown_counterexample :
    (delete_voice_model { modelFiles := [], training_jobs := [] } "ghost").1 = true :=
  rfl

/-- Claim C9 (amended): `delete_voice_model` removes the stored model file
and the registry entry when present and returns `True` whether or not the id
was known (it returns `False` only on a filesystem error); repeating the
call changes nothing further. -/
theorem delete_voice_model_amended (s : EngineState) (job_id : String) :
    (delete_voice_model s job_id).1 = true
    ∧ job_id ∉ (delete_voice_model s job_id).2.modelFiles
    ∧ lookupJob (delete_voice_model s job_id).2.training_jobs job_id = none
    ∧ delete_voice_model (delete_voice_model s job_id).2 job_id = delete_voice_model s job_id := by
  refine ⟨rfl, ?_, ?_, ?_⟩
  · intro hmem
    simp [delete_voice_model, List.mem_filter] at hmem
  · unfold delete_voice_model lookupJob
    rw [List.find?_eq_none.mpr]
    · rfl
    · intro x hx
      have := (List.mem_filter.mp hx).2
      simpa using this
  · simp [delete_voice_model, List.filter_filter]

/-- Claim C10: `list_voice_models` never fails on unreadable model files —
it returns exactly one summary per readable file (a permutation of the
readable summaries, so the failing files and only they are skipped), sorted
by `created_at` descending. -/
theorem list_voice_models_spec (files : List ModelFile) :
    (list_voice_models files).Perm (files.filterMap modelInfoOf)
    ∧ (list_voice_models files).Sorted byCreatedAtDesc
    ∧ (list_voice_models files).length = (files.filter (fun f => f.data.isSome)).length := by
  refine ⟨List.perm_insertionSort _ _, List.sorted_insertionSort _ _, ?_⟩
  rw [show list_voice_models files = (files.filterMap modelInfoOf).insertionSort byCreatedAtDesc
    from rfl]
  rw [(List.perm_insertionSort byCreatedAtDesc (files.filterMap modelInfoOf)).length_eq]
  induction files with
  | nil => rfl
  | cons f fs ih =>
      cases hd : f.data <;>
        simp [List.filterMap_cons, modelInfoOf, hd, List.filter_cons, ih]

/-- On a non-empty list of rows of common length `L`, the element-wise mean
is the length-`L` vector of column means. -/
lemma elementwiseMean_spec (L : Nat) (f : VoiceCharacteristics → List ℚ)
    (cs : List VoiceCharacteristics) (hne : cs ≠ [])
    (h : ∀ c ∈ cs, (f c).length = L) :
    elementwiseMean (cs.map f) = (List.range L).map (fun j =>
      (cs.map (fun c => (f c).getD j 0)).sum / (cs.length : ℚ)) := by
  cases cs with
  | nil => exact absurd rfl hne
  | cons c0 rest =>
      rw [List.map_cons]
      show (List.range (f c0).length).map _ = _
      rw [h c0 (List.mem_cons_self c0 rest)]
      refine List.map_congr_left (fun j _ => ?_)
      unfold npMean
      simp [List.map_map, Function.comp_def]

/-- The mean `npMean` is invariant under permutation of its input. -/
lemma npMean_perm {l₁ l₂ : List ℚ} (h : l₁.Perm l₂) : npMean l₁ = npMean l₂ := by
  unfold npMean
  rw [h.sum_eq, h.length_eq]

/-- Python `sorted(list(set(...)))` only depends on the multiset of its input. -/
lemma sortedSet_eq_of_perm {l₁ l₂ : List ℚ} (h : l₁.Perm l₂) :
    sortedSet l₁ = sortedSet l₂ := by
  unfold sortedSet
  refine List.eq_of_perm_of_sorted ?_ (List.sorted_insertionSort _ _)
    (List.sorted_insertionSort _ _)
  exact ((List.perm_insertionSort _ _).trans h.dedup).trans
    (List.perm_insertionSort _ _).symm

/-- The output of `sortedSet` is ascending and duplicate-free. -/
lemma sortedSet_sorted_nodup (l : List ℚ) :
    (sortedSet l).Sorted (· ≤ ·) ∧ (sortedSet l).Nodup :=
  ⟨List.sorted_insertionSort _ _,
   (List.perm_insertionSort _ _).symm.nodup l.nodup_dedup⟩

/-- Claim C1: on every non-empty input whose MFCC vectors have length 13 and
whose chroma vectors have length 12, `_combine_voice_characteristics`
returns a profile whose scalar fields are the unweighted arithmetic means,
whose MFCC/chroma vectors are the element-wise (column) means, and whose
formants are the exactly-deduplicated ascending union truncated to 4 entries
(default `[500, 1500, 2500, 3500]` when the union is empty) — in particular
the formant list is ascending, duplicate-free and of length at most 4. -/
theorem combine_voice_characteristics_spec (cs : List VoiceCharacteristics)
    (hne : cs ≠ [])
    (hm : ∀ c ∈ cs, c.mfcc_features.length = 13)
    (hch : ∀ c ∈ cs, c.chroma_features.length = 12) :
    ∃ p, combine_voice_characteristics cs = some p
      ∧ p.fundamental_frequency
          = (cs.map (fun c => c.fundamental_frequency)).sum / (cs.length : ℚ)
      ∧ p.spectral_centroid = (cs.map (fun c => c.spectral_centroid)).sum / (cs.length : ℚ)
      ∧ p.spectral_rolloff = (cs.map (fun c => c.spectral_rolloff)).sum / (cs.length : ℚ)
      ∧ p.zero_crossing_rate = (cs.map (fun c => c.zero_crossing_rate)).sum / (cs.length : ℚ)
      ∧ p.tempo = (cs.map (fun c => c.tempo)).sum / (cs.length : ℚ)
      ∧ p.pitch_variance = (cs.map (fun c => c.pitch_variance)).sum / (cs.length : ℚ)
      ∧ p.voice_quality_score
          = (cs.map (fun c => c.voice_quality_score)).sum / (cs.length : ℚ)
      ∧ p.mfcc_features = (List.range 13).map (fun j =>
          (cs.map (fun c => c.mfcc_features.getD j 0)).sum / (cs.length : ℚ))
      ∧ p.chroma_features = (List.range 12).map (fun j =>
          (cs.map (fun c => c.chroma_features.getD j 0)).sum / (cs.length : ℚ))
      ∧ p.formants = (if cs.flatMap (fun c => c.formants) = []
          then [500, 1500, 2500, 3500]
          else ((cs.flatMap (fun c => c.formants)).dedup.insertionSort (· ≤ ·)).take 4)
      ∧ p.formants.Sorted (· ≤ ·)
      ∧ p.formants.Nodup
      ∧ p.formants.length ≤ 4 := by
  unfold combine_voice_characteristics
  rw [if_neg hne]
  refine ⟨_, rfl, ?_, ?_, ?_, ?_, ?_, ?_, ?_, ?_, ?_, rfl, ?_, ?_, ?_⟩
  · simp [npMean]
  · simp [npMean]
  · simp [npMean]
  · simp [npMean]
  · simp [npMean]
  · simp [npMean]
  · simp [npMean]
  · exact elementwiseMean_spec 13 _ cs hne hm
  · exact elementwiseMean_spec 12 _ cs hne hch
  · -- ascending
    split
    · simp [List.sorted_cons]
      norm_num
    · exact ((sortedSet_sorted_nodup _).1).sublist (List.take_sublist 4 _)
  · -- duplicate-free
    split
    · simp [List.nodup_cons]
    · exact ((sortedSet_sorted_nodup _).2).sublist (List.take_sublist 4 _)
  · -- at most 4 entries
    split
    · simp
    · simp [List.length_take]

/-- Witness input for the combiner theorems: a first concrete sample. -/
def voiceA : VoiceCharacteristics :=
  { fundamental_frequency := 150, spectral_centroid := 2000, spectral_rolloff := 4000,
    zero_crossing_rate := 1,
    mfcc_features := [1, 2, 3, 4, 5, 6, 7, 8, 9, 10, 11, 12, 13],
    chroma_features := [1, 2, 3, 4, 5, 6, 7, 8, 9, 10, 11, 12],
    tempo := 120, pitch_variance := 5, formants := [700, 500],
    voice_quality_score := 1 }

/-- Witness input for the combiner theorems: a second concrete sample. -/
def voiceB : VoiceCharacteristics :=
  { fundamental_frequency := 180, spectral_centroid := 2400, spectral_rolloff := 4400,
    zero_crossing_rate := 0,
    mfcc_features := [2, 3, 4, 5, 6, 7, 8, 9, 10, 11, 12, 13, 14],
    chroma_features := [2, 3, 4, 5, 6, 7, 8, 9, 10, 11, 12, 13],
    tempo := 90, pitch_variance := 3, formants := [600, 1700],
    voice_quality_score := 0 }

/-- Witness for the C1 theorem on the singleton input `[voiceA]`. -/
theorem combine_voice_characteristics_spec_witness :
    ([voiceA] ≠ [] ∧ (∀ c ∈ [voiceA], c.mfcc_features.length = 13)
      ∧ (∀ c ∈ [voiceA], c.chroma_features.length = 12))
    ∧ ∃ p, combine_voice_characteristics [voiceA] = some p
      ∧ p.fundamental_frequency
          = ([voiceA].map (fun c => c.fundamental_frequency)).sum / (([voiceA].length : Nat) : ℚ)
      ∧ p.spectral_centroid
          = ([voiceA].map (fun c => c.spectral_centroid)).sum / (([voiceA].length : Nat) : ℚ)
      ∧ p.spectral_rolloff
          = ([voiceA].map (fun c => c.spectral_rolloff)).sum / (([voiceA].length : Nat) : ℚ)
      ∧ p.zero_crossing_rate
          = ([voiceA].map (fun c => c.zero_crossing_rate)).sum / (([voiceA].length : Nat) : ℚ)
      ∧ p.tempo = ([voiceA].map (fun c => c.tempo)).sum / (([voiceA].length : Nat) : ℚ)
      ∧ p.pitch_variance
          = ([voiceA].map (fun c => c.pitch_variance)).sum / (([voiceA].length : Nat) : ℚ)
      ∧ p.voice_quality_score
          = ([voiceA].map (fun c => c.voice_quality_score)).sum / (([voiceA].length : Nat) : ℚ)
      ∧ p.mfcc_features = (List.range 13).map (fun j =>
          ([voiceA].map (fun c => c.mfcc_features.getD j 0)).sum / (([voiceA].length : Nat) : ℚ))
      ∧ p.chroma_features = (List.range 12).map (fun j =>
          ([voiceA].map (fun c => c.chroma_features.getD j 0)).sum / (([voiceA].length : Nat) : ℚ))
      ∧ p.formants = (if [voiceA].flatMap (fun c => c.formants) = []
          then [500, 1500, 2500, 3500]
          else (([voiceA].flatMap (fun c => c.formants)).dedup.insertionSort (· ≤ ·)).take 4)
      ∧ p.formants.Sorted (· ≤ ·)
      ∧ p.formants.Nodup
      ∧ p.formants.length ≤ 4 :=
  ⟨⟨by decide, by decide, by decide⟩,
   combine_voice_characteristics_spec [voiceA] (by decide) (by decide) (by decide)⟩

/-- Claim C7: the combiner is order-independent — permuting the input list
of voice characteristics (each with the fixed 13/12 vector lengths required
by the data-model invariant) yields the same combined profile. -/
theorem combine_voice_characteristics_perm (cs₁ cs₂ : List VoiceCharacteristics)
    (hp : cs₁.Perm cs₂)
    (hm : ∀ c ∈ cs₁, c.mfcc_features.length = 13)
    (hch : ∀ c ∈ cs₁, c.chroma_features.length = 12) :
    combine_voice_characteristics cs₁ = combine_voice_characteristics cs₂ := by
  rcases eq_or_ne cs₁ [] with rfl | hne
  · rw [hp.symm.eq_nil]
  · have hne₂ : cs₂ ≠ [] := fun h => hne (by rw [h] at hp; exact hp.eq_nil)
    have hm₂ : ∀ c ∈ cs₂, c.mfcc_features.length = 13 :=
      fun c hc => hm c (hp.mem_iff.mpr hc)
    have hch₂ : ∀ c ∈ cs₂, c.chroma_features.length = 12 :=
      fun c hc => hch c (hp.mem_iff.mpr hc)
    have hflat := hp.flatMap_right (fun c => c.formants)
    unfold combine_voice_characteristics
    rw [if_neg hne, if_neg hne₂]
    refine congrArg some ?_
    simp only [VoiceProfile.mk.injEq]
    refine ⟨npMean_perm (hp.map _), npMean_perm (hp.map _), npMean_perm (hp.map _),
      npMean_perm (hp.map _), ?_, ?_, npMean_perm (hp.map _), npMean_perm (hp.map _),
      ?_, npMean_perm (hp.map _)⟩
    · rw [elementwiseMean_spec 13 _ cs₁ hne hm, elementwiseMean_spec 13 _ cs₂ hne₂ hm₂]
      refine List.map_congr_left (fun j _ => ?_)
      rw [(hp.map (fun c => c.mfcc_features.getD j 0)).sum_eq, hp.length_eq]
    · rw [elementwiseMean_spec 12 _ cs₁ hne hch, elementwiseMean_spec 12 _ cs₂ hne₂ hch₂]
      refine List.map_congr_left (fun j _ => ?_)
      rw [(hp.map (fun c => c.chroma_features.getD j 0)).sum_eq, hp.length_eq]
    · by_cases h1 : cs₁.flatMap (fun c => c.formants) = []
      · have h2 : cs₂.flatMap (fun c => c.formants) = [] := by
          rw [h1] at hflat
          exact hflat.symm.eq_nil
        rw [if_pos h1, if_pos h2]
      · have h2 : cs₂.flatMap (fun c => c.formants) ≠ [] := fun h => by
          rw [h] at hflat
          exact h1 hflat.eq_nil
        rw [if_neg h1, if_neg h2, sortedSet_eq_of_perm hflat]

/-- Witness for the C7 theorem on the concrete two-element permutation
`[voiceA, voiceB] ~ [voiceB, voiceA]`. -/
theorem combine_voice_characteristics_perm_witness :
    ([voiceA, voiceB].Perm [voiceB, voiceA]
      ∧ (∀ c ∈ [voiceA, voiceB], c.mfcc_features.length = 13)
      ∧ (∀ c ∈ [voiceA, voiceB], c.chroma_features.length = 12))
    ∧ combine_voice_characteristics [voiceA, voiceB]
        = combine_voice_characteristics [voiceB, voiceA] :=
  ⟨⟨List.Perm.swap voiceB voiceA [], by decide, by decide⟩,
   combine_voice_characteristics_perm [voiceA, voiceB] [voiceB, voiceA]
     (List.Perm.swap voiceB voiceA []) (by decide) (by decide)⟩

end VoiceClone
